import Mathlib

/-!
# Verification of the open-mateo-wrapper water-savings service

Shallow embedding of `src/app.js`: an Express endpoint `/water-savings` that
fetches hourly precipitation from the Open-Meteo historical-forecast API
(through a 1-hour in-process cache), buckets the series by calendar month,
applies the linear conversion `litres = area_sqft * rainfall_mm * 0.0929`,
and returns monthly totals, a grand total and a derived cost saving.

JavaScript numbers are modelled exactly (as rationals) together with the
`NaN` absorbing element; IEEE rounding is abstracted away.  Fallible parts
(query parameters, upstream fetch, payload shape) are modelled with
`Option`/`Except`.  Time is a natural-number millisecond clock passed
explicitly to the cache operations.
-/

namespace OpenMeteo

/-- A JavaScript number as it occurs in this program: either `NaN` (arising
from arithmetic on `undefined`, e.g. an out-of-bounds array read) or a
finite value, modelled as an exact rational.  Infinities do not arise in the
modelled code paths and are not represented. -/
inductive JNum where
  | nan : JNum
  | num (q : ℚ) : JNum
  deriving DecidableEq

/-- JS addition: `NaN` is absorbing, finite values add exactly. -/
def jadd : JNum → JNum → JNum
  | JNum.num a, JNum.num b => JNum.num (a + b)
  | _, _ => JNum.nan

/-- JS multiplication: `NaN` is absorbing, finite values multiply exactly.
`area * undefined` in the source coerces `undefined` to `NaN`, which this
absorbs. -/
def jmul : JNum → JNum → JNum
  | JNum.num a, JNum.num b => JNum.num (a * b)
  | _, _ => JNum.nan

/-- JS division as used at `app.js:101` (`totalWaterCollected / 1000`): the
divisor in the program is the nonzero literal `1000`, so division by zero
(JS `Infinity`) never arises and is not modelled. -/
def jdiv : JNum → JNum → JNum
  | JNum.num a, JNum.num b => JNum.num (a / b)
  | _, _ => JNum.nan

/-- JS falsiness of a number: `NaN`, `0` and `-0` are falsy.  This models the
`if (!monthlyWaterCollected[month])` test at `app.js:90` (a missing key reads
as `undefined`, which is also falsy; the bucket map below defaults absent
keys to `0`, which the same branch covers). -/
def falsy : JNum → Bool
  | JNum.nan => true
  | JNum.num q => decide (q = 0)

/-- Numeric value of a decimal digit character. -/
def digitVal (c : Char) : ℕ := c.toNat - 48

/-- Value of a digit string, most significant first (as JS `parseFloat`
accumulates integer parts). -/
def digitsToNat (ds : List Char) : ℕ :=
  ds.foldl (fun a c => a * 10 + digitVal c) 0

/-- `Number.prototype.toFixed(2)` per ECMA-262: for `NaN` the string `"NaN"`;
otherwise split off the sign, pick the integer `n` with `n / 100` closest to
the magnitude (ties to the larger `n`, i.e. round half up on the magnitude),
and print `n` with exactly two decimal places. -/
def jToFixed2 : JNum → String
  | JNum.nan => "NaN"
  | JNum.num x =>
    let s : Bool := decide (x < 0)
    let y : ℚ := if s then -x else x
    let n : ℕ := (⌊y * 100 + 1 / 2⌋).toNat
    (if s then "-" else "") ++ Nat.repr (n / 100) ++ "." ++
      (if n % 100 < 10 then "0" else "") ++ Nat.repr (n % 100)

/-- Leap-year rule of the proleptic Gregorian calendar (as implemented by
moment.js when validating an ISO date). -/
def isLeap (y : ℕ) : Bool := (y % 4 == 0 && y % 100 != 0) || y % 400 == 0

/-- Days in a month, for moment.js's validation of ISO dates. -/
def daysInMonth (y m : ℕ) : ℕ :=
  if m = 2 then (if isLeap y then 29 else 28)
  else if m = 4 ∨ m = 6 ∨ m = 9 ∨ m = 11 then 30
  else 31

/-- Zero-padded 4-digit decimal rendering (moment's `YYYY` for years
`0 ≤ y ≤ 9999`). -/
def pad4 (n : ℕ) : List Char :=
  [Nat.digitChar (n / 1000 % 10), Nat.digitChar (n / 100 % 10),
   Nat.digitChar (n / 10 % 10), Nat.digitChar (n % 10)]

/-- Zero-padded 2-digit decimal rendering (moment's `MM`). -/
def pad2 (n : ℕ) : List Char :=
  [Nat.digitChar (n / 10 % 10), Nat.digitChar (n % 10)]

/-- Does the string have the exact shape `YYYY-MM-DDTHH:mm` (the format the
Open-Meteo hourly `time` array uses), with calendar-valid month, day, hour
and minute?  Such timestamps carry no explicit UTC offset, so moment parses
their components as given. -/
def isoHourlyShape (ts : String) : Bool :=
  match ts.data with
  | [y1, y2, y3, y4, s1, m1, m2, s2, d1, d2, s3, h1, h2, s4, n1, n2] =>
    (decide (s1 = '-') && decide (s2 = '-') && decide (s3 = 'T') && decide (s4 = ':')) &&
    (y1.isDigit && y2.isDigit && y3.isDigit && y4.isDigit &&
     m1.isDigit && m2.isDigit && d1.isDigit && d2.isDigit &&
     h1.isDigit && h2.isDigit && n1.isDigit && n2.isDigit) &&
    (let y := digitsToNat [y1, y2, y3, y4]
     let m := digitsToNat [m1, m2]
     let d := digitsToNat [d1, d2]
     let h := digitsToNat [h1, h2]
     let mi := digitsToNat [n1, n2]
     decide (1 ≤ m) && decide (m ≤ 12) && decide (1 ≤ d) &&
     decide (d ≤ daysInMonth y m) && decide (h ≤ 23) && decide (mi ≤ 59))
  | _ => false

/-- Model of `moment(date).format('YYYY-MM')` at `app.js:87` for offset-free
`YYYY-MM-DDTHH:mm` timestamps (the shape Open-Meteo returns): moment parses
the year and month fields numerically and re-renders them zero-padded as
`YYYY-MM`; any string not of that valid shape is treated as an invalid
moment, which formats to `"Invalid date"`. -/
def momentYYYYMM (ts : String) : String :=
  if isoHourlyShape ts then
    match ts.data with
    | y1 :: y2 :: y3 :: y4 :: _ :: m1 :: m2 :: _ =>
      String.mk (pad4 (digitsToNat [y1, y2, y3, y4]) ++
        '-' :: pad2 (digitsToNat [m1, m2]))
    | _ => "Invalid date"
  else "Invalid date"

/-- Modelled from the spec: "Derive the calendar month label by truncating
the timestamp to YYYY-MM" — literal truncation of the string to its first
seven characters, for comparison with the moment-based code path. -/
def truncYYYYMM (ts : String) : String := String.mk (ts.data.take 7)

/-- Model of JS `parseFloat` (`app.js:65`) on the inputs this program can
receive: skip leading whitespace, then read an optional sign, integer
digits, an optional fraction and an optional exponent, taking the longest
valid prefix; if no digits occur before the exponent position the result is
`NaN`.  The `Infinity` literal is not modelled (`JNum` has no infinities;
no claim involves it). -/
def parseFloatJS (s : String) : JNum :=
  let cs := s.data.dropWhile fun c => c = ' ' ∨ c = '\t' ∨ c = '\n' ∨ c = '\r'
  let signAndRest : ℚ × List Char :=
    match cs with
    | '+' :: r => (1, r)
    | '-' :: r => (-1, r)
    | _ => (1, cs)
  let sign := signAndRest.1
  let cs1 := signAndRest.2
  let intDs := cs1.takeWhile Char.isDigit
  let cs2 := cs1.dropWhile Char.isDigit
  let fracAndRest : List Char × List Char :=
    match cs2 with
    | '.' :: r => (r.takeWhile Char.isDigit, r.dropWhile Char.isDigit)
    | _ => ([], cs2)
  let fracDs := fracAndRest.1
  let cs3 := fracAndRest.2
  if intDs = [] ∧ fracDs = [] then JNum.nan
  else
    let mantissa : ℚ :=
      (digitsToNat intDs : ℚ) + (digitsToNat fracDs : ℚ) / 10 ^ fracDs.length
    let expVal : ℤ :=
      match cs3 with
      | e :: r =>
        if e = 'e' ∨ e = 'E' then
          let esignAndRest : ℤ × List Char :=
            match r with
            | '+' :: r2 => (1, r2)
            | '-' :: r2 => (-1, r2)
            | _ => (1, r)
          let eds := esignAndRest.2.takeWhile Char.isDigit
          if eds = [] then 0 else esignAndRest.1 * digitsToNat eds
        else 0
      | [] => 0
    JNum.num (sign * mantissa * (10 : ℚ) ^ expVal)

/-! ## Cache and weather fetcher (`app.js:10, 23-53`) -/

/-- The Open-Meteo payload as far as this program inspects it: a JSON object
whose `hourly` member (if present and non-null) may carry `time` (ISO
timestamp strings) and `precipitation` (numbers in mm).  `Option` models
absent/null members; arrays and objects are always truthy in JS, so
presence is exactly what the source's `!`-checks test. -/
structure HourlyBlock where
  time : Option (List String)
  precipitation : Option (List ℚ)

/-- A fetched weather payload (`response.data`). -/
structure WeatherData where
  hourly : Option HourlyBlock

/-- The node-cache store (`new NodeCache({ stdTTL: 3600 })`): each key maps
to a stored payload and its absolute expiry time in milliseconds
(insertion time + 3600 * 1000). -/
def Cache : Type := String → Option (WeatherData × ℕ)

/-- The empty cache (process start). -/
def emptyCache : Cache := fun _ => none

/-- Cache key built at `app.js:24`: the four query dimensions joined by
commas. -/
def cacheKey (latitude longitude startDate endDate : String) : String :=
  latitude ++ "," ++ longitude ++ "," ++ startDate ++ "," ++ endDate

/-- node-cache `get` with lazy expiry at clock `now` (ms): an entry whose
expiry time has strictly passed (`t < now`) is treated as absent; a live
entry returns its stored value.  (node-cache also deletes the expired entry
on read; that is observably equivalent for `get` and not modelled.) -/
def cacheGet (c : Cache) (now : ℕ) (k : String) : Option WeatherData :=
  match c k with
  | none => none
  | some (v, t) => if t < now then none else some v

/-- node-cache `set` with the default TTL of 3600 seconds: stores the value
with expiry `now + 3600 * 1000` ms. -/
def cacheSet (c : Cache) (now : ℕ) (k : String) (v : WeatherData) : Cache :=
  fun k2 => if k2 = k then some (v, now + 3600 * 1000) else c k2

/-- Outcome of one call to `getWeatherData`: the returned payload or thrown
error, the cache afterwards, and how many upstream (logical) requests were
issued — 0 on a cache hit, 1 otherwise (axios-retry's up-to-5 physical
attempts behind one logical request are abstracted into the `upstream`
argument, which is the post-retry outcome). -/
structure FetchResult where
  result : Except String WeatherData
  cache : Cache
  upstreamCalls : ℕ

/-- Model of `getWeatherData` (`app.js:23-53`): build the cache key, return
a cached payload on a hit; on a miss issue the upstream request — on
success store the body under the key and return it, on failure rethrow the
error (carrying its message) and leave the cache unchanged. -/
def getWeatherData (c : Cache) (now : ℕ) (upstream : Except String WeatherData)
    (latitude longitude startDate endDate : String) : FetchResult :=
  let k := cacheKey latitude longitude startDate endDate
  match cacheGet c now k with
  | some d => ⟨Except.ok d, c, 0⟩
  | none =>
    match upstream with
    | Except.ok d => ⟨Except.ok d, cacheSet c now k d, 1⟩
    | Except.error e => ⟨Except.error e, c, 1⟩

/-! ## Aggregation loop (`app.js:83-98`) -/

/-- `WATER_COST_PER_1000_LITRES` (`app.js:17`). -/
def WATER_COST_PER_1000_LITRES : ℚ := 3 / 2

/-- The sq-ft-to-m² constant `0.0929` of the conversion formula
(`app.js:95`), exact as a rational. -/
def SQFT_FACTOR : ℚ := 929 / 10000

/-- State of the aggregation loop: the bucket keys in encounter order (JS
object insertion order), the bucket map (absent keys read as the JS
`undefined`; since `undefined` and `0` are both falsy and the loop
initialises falsy reads to `0`, absent keys are represented by `num 0`),
and the running grand total. -/
structure AggState where
  monthKeys : List String
  monthlyWaterCollected : String → JNum
  totalWaterCollected : JNum

/-- Initial aggregation state (`app.js:83-84`). -/
def initAgg : AggState :=
  ⟨[], fun _ => JNum.num 0, JNum.num 0⟩

/-- Reading `precipitation[index]`: an out-of-range index yields JS
`undefined`, which the multiplication coerces to `NaN`. -/
def readRain (precipitation : List ℚ) (i : ℕ) : JNum :=
  match precipitation[i]? with
  | some r => JNum.num r
  | none => JNum.nan

/-- One iteration of the `dates.forEach` body (`app.js:86-98`): derive the
month label, read this hour's rainfall, reset the bucket to `0` if its
current content is falsy (`undefined`, `0` or `NaN` — `app.js:90-92`),
add `area * rainfall * 0.0929` to the bucket and to the grand total. -/
def aggStep (area : ℚ) (st : AggState) (date : String) (rain : JNum) : AggState :=
  let month := momentYYYYMM date
  let keys := if month ∈ st.monthKeys then st.monthKeys else st.monthKeys ++ [month]
  let cur := st.monthlyWaterCollected month
  let base := if falsy cur then JNum.num 0 else cur
  let w := jmul (jmul (JNum.num area) rain) (JNum.num SQFT_FACTOR)
  ⟨keys,
   fun k => if k = month then jadd base w else st.monthlyWaterCollected k,
   jadd st.totalWaterCollected w⟩

/-- The loop folded over the index-stamped dates. -/
def aggFold (area : ℚ) (precipitation : List ℚ)
    (l : List (ℕ × String)) (st : AggState) : AggState :=
  l.foldl (fun s p => aggStep area s p.2 (readRain precipitation p.1)) st

/-- The whole aggregation (`app.js:86-98`): fold the loop body over the
`time` array with its indices, starting from empty buckets and a zero
total. -/
def aggregate (area : ℚ) (dates : List String) (precipitation : List ℚ) : AggState :=
  aggFold area precipitation dates.enum initAgg

/-- Sum of a list of JS numbers (for stating that the grand total equals
the sum of the bucket values). -/
def jsum (l : List JNum) : JNum := l.foldr jadd (JNum.num 0)

/-! ## HTTP endpoint (`app.js:56-114`) -/

/-- The five query parameters of `/water-savings`; `none` models an absent
parameter. -/
structure Query where
  latitude : Option String
  longitude : Option String
  startDate : Option String
  endDate : Option String
  areaSqFt : Option String

/-- JS truthiness of a query-string parameter: absent (`undefined`) and the
empty string are falsy; every other string is truthy. -/
def truthy : Option String → Bool
  | none => false
  | some s => !(s == "")

/-- The `!latitude || !longitude || !startDate || !endDate || !areaSqFt`
validation test (`app.js:61`). -/
def missingParams (q : Query) : Bool :=
  !(truthy q.latitude) || !(truthy q.longitude) || !(truthy q.startDate) ||
    !(truthy q.endDate) || !(truthy q.areaSqFt)

/-- The 400 message for missing parameters (`app.js:62`). -/
def missingMsg : String :=
  "Missing required parameters (latitude, longitude, startDate, endDate, areaSqFt)"

/-- The fixed formula string of the 200 response (`app.js:109`). -/
def formulaMsg : String :=
  "Water Collected (litres) = Area (sq. ft.) × Rainfall (mm) × 0.0929 (1 sq. ft. = 0.0929 m²)"

/-- The shape check at `app.js:75`: `weatherData.hourly`, `.hourly.time` and
`.hourly.precipitation` must all be present (objects and arrays are always
truthy, so presence is the whole test); on success return the two arrays. -/
def shapeOk (wd : WeatherData) : Option (List String × List ℚ) :=
  match wd.hourly with
  | none => none
  | some h =>
    match h.time, h.precipitation with
    | some ts, some ps => some (ts, ps)
    | _, _ => none

/-- Body of an HTTP response: an error object `{ error: msg }` or the
success JSON of `app.js:104-110` (the bucket map is carried as its key list
in insertion order plus the map itself). -/
inductive Body where
  | fail (error : String) : Body
  | success (monthKeys : List String) (monthlyWaterCollected : String → JNum)
      (totalWaterCollected : String) (moneySaved : String)
      (waterCostPer1000LitrePounds : ℚ) (waterCollectedFormula : String) : Body

/-- An HTTP response: status code and JSON body. -/
structure Response where
  status : ℕ
  body : Body

/-- Outcome of one request: the response, the cache afterwards, and the
number of upstream requests issued. -/
structure HandlerResult where
  resp : Response
  cache : Cache
  upstreamCalls : ℕ

/-- The `totalWaterCollected` field of a success body, if any. -/
def totalField : Body → Option String
  | Body.success _ _ t _ _ _ => some t
  | _ => none

/-- The `moneySaved` field of a success body, if any. -/
def moneyField : Body → Option String
  | Body.success _ _ _ m _ _ => some m
  | _ => none

/-- The `error` field of a failure body, if any. -/
def errorField : Body → Option String
  | Body.fail e => some e
  | _ => none

/-- Model of the `/water-savings` handler (`app.js:56-114`): validate the
five parameters (JS truthiness), parse and positivity-check the area,
fetch (through the cache), shape-check the payload, aggregate, and shape
the JSON response; fetch errors surface as 500 with the error's message. -/
def handler (c : Cache) (now : ℕ) (upstream : Except String WeatherData)
    (q : Query) : HandlerResult :=
  if missingParams q then ⟨⟨400, Body.fail missingMsg⟩, c, 0⟩
  else
    match parseFloatJS (q.areaSqFt.getD "") with
    | JNum.nan => ⟨⟨400, Body.fail "Invalid area value"⟩, c, 0⟩
    | JNum.num area =>
      if area ≤ 0 then ⟨⟨400, Body.fail "Invalid area value"⟩, c, 0⟩
      else
        let fr := getWeatherData c now upstream (q.latitude.getD "")
          (q.longitude.getD "") (q.startDate.getD "") (q.endDate.getD "")
        match fr.result with
        | Except.error e => ⟨⟨500, Body.fail e⟩, fr.cache, fr.upstreamCalls⟩
        | Except.ok wd =>
          match shapeOk wd with
          | none =>
            ⟨⟨500, Body.fail "Invalid weather data structure"⟩, fr.cache, fr.upstreamCalls⟩
          | some (dates, precipitation) =>
            let st := aggregate area dates precipitation
            let moneySaved := jmul (jdiv st.totalWaterCollected (JNum.num 1000))
              (JNum.num WATER_COST_PER_1000_LITRES)
            ⟨⟨200, Body.success st.monthKeys st.monthlyWaterCollected
              (jToFixed2 st.totalWaterCollected) (jToFixed2 moneySaved)
              WATER_COST_PER_1000_LITRES formulaMsg⟩, fr.cache, fr.upstreamCalls⟩

/-! ## Basic facts about the JS number model -/

theorem jadd_num (a b : ℚ) : jadd (JNum.num a) (JNum.num b) = JNum.num (a + b) := rfl

theorem jadd_nan_left (w : JNum) : jadd JNum.nan w = JNum.nan := by
  cases w <;> rfl

theorem jadd_nan_right (w : JNum) : jadd w JNum.nan = JNum.nan := by
  cases w <;> rfl

theorem jmul_nan_left (w : JNum) : jmul JNum.nan w = JNum.nan := by
  cases w <;> rfl

theorem jmul_nan_right (w : JNum) : jmul w JNum.nan = JNum.nan := by
  cases w <;> rfl

theorem jdiv_nan_left (w : JNum) : jdiv JNum.nan w = JNum.nan := by
  cases w <;> rfl

/-! ## Decimal digits round-trip (for the month-label claim) -/

theorem toNat_bounds_of_isDigit {c : Char} (h : c.isDigit = true) :
    48 ≤ c.toNat ∧ c.toNat ≤ 57 := by
  simp only [Char.isDigit, ge_iff_le, Bool.and_eq_true, decide_eq_true_eq] at h
  exact ⟨UInt32.le_toNat_of_le (by norm_num) h.1, UInt32.toNat_le_of_le (by norm_num) h.2⟩

theorem digitVal_le_nine {c : Char} (h : c.isDigit = true) : digitVal c ≤ 9 := by
  have := toNat_bounds_of_isDigit h
  simp only [digitVal]
  omega

theorem digitChar_digitVal {c : Char} (h : c.isDigit = true) :
    Nat.digitChar (digitVal c) = c := by
  have hb := toNat_bounds_of_isDigit h
  have hcases : c.toNat = 48 ∨ c.toNat = 49 ∨ c.toNat = 50 ∨ c.toNat = 51 ∨
      c.toNat = 52 ∨ c.toNat = 53 ∨ c.toNat = 54 ∨ c.toNat = 55 ∨
      c.toNat = 56 ∨ c.toNat = 57 := by omega
  simp only [digitVal]
  rcases hcases with h1 | h1 | h1 | h1 | h1 | h1 | h1 | h1 | h1 | h1 <;>
    rw [← Char.ofNat_toNat c, h1] <;> decide

theorem pad4_digits {a b c d : Char} (ha : a.isDigit = true) (hb : b.isDigit = true)
    (hc : c.isDigit = true) (hd : d.isDigit = true) :
    pad4 (digitsToNat [a, b, c, d]) = [a, b, c, d] := by
  have hn : digitsToNat [a, b, c, d] =
      (((0 * 10 + digitVal a) * 10 + digitVal b) * 10 + digitVal c) * 10 + digitVal d := rfl
  have h1 := digitVal_le_nine ha
  have h2 := digitVal_le_nine hb
  have h3 := digitVal_le_nine hc
  have h4 := digitVal_le_nine hd
  rw [pad4, hn]
  rw [show ((((0 * 10 + digitVal a) * 10 + digitVal b) * 10 + digitVal c) * 10 + digitVal d)
      / 1000 % 10 = digitVal a by omega]
  rw [show ((((0 * 10 + digitVal a) * 10 + digitVal b) * 10 + digitVal c) * 10 + digitVal d)
      / 100 % 10 = digitVal b by omega]
  rw [show ((((0 * 10 + digitVal a) * 10 + digitVal b) * 10 + digitVal c) * 10 + digitVal d)
      / 10 % 10 = digitVal c by omega]
  rw [show ((((0 * 10 + digitVal a) * 10 + digitVal b) * 10 + digitVal c) * 10 + digitVal d)
      % 10 = digitVal d by omega]
  rw [digitChar_digitVal ha, digitChar_digitVal hb, digitChar_digitVal hc,
    digitChar_digitVal hd]

theorem pad2_digits {a b : Char} (ha : a.isDigit = true) (hb : b.isDigit = true) :
    pad2 (digitsToNat [a, b]) = [a, b] := by
  have hn : digitsToNat [a, b] = (0 * 10 + digitVal a) * 10 + digitVal b := rfl
  have h1 := digitVal_le_nine ha
  have h2 := digitVal_le_nine hb
  rw [pad2, hn]
  rw [show ((0 * 10 + digitVal a) * 10 + digitVal b) / 10 % 10 = digitVal a by omega]
  rw [show ((0 * 10 + digitVal a) * 10 + digitVal b) % 10 = digitVal b by omega]
  rw [digitChar_digitVal ha, digitChar_digitVal hb]

/-- C4: For every timestamp in the input series (of the offset-free
`YYYY-MM-DDTHH:mm` shape the upstream returns, with calendar-valid
components), the calendar month label used as its bucket key —
`moment(date).format('YYYY-MM')` at `app.js:87` — is the timestamp
truncated to its first seven characters `YYYY-MM` exactly as given, with no
timezone conversion. -/
theorem momentYYYYMM_is_truncation (ts : String) (h : isoHourlyShape ts = true) :
    momentYYYYMM ts = truncYYYYMM ts := by
  have h0 := h
  obtain ⟨data⟩ := ts
  rcases data with _ | ⟨c1, _ | ⟨c2, _ | ⟨c3, _ | ⟨c4, _ | ⟨c5, _ | ⟨c6, _ | ⟨c7,
    _ | ⟨c8, _ | ⟨c9, _ | ⟨c10, _ | ⟨c11, _ | ⟨c12, _ | ⟨c13, _ | ⟨c14, _ | ⟨c15,
    _ | ⟨c16, _ | ⟨c17, rest⟩⟩⟩⟩⟩⟩⟩⟩⟩⟩⟩⟩⟩⟩⟩⟩⟩ <;>
    try simp [isoHourlyShape] at h
  have h2 := h0
  simp only [isoHourlyShape, Bool.and_eq_true, decide_eq_true_eq, and_assoc] at h2
  obtain ⟨hs1, hs2, hs3, hs4, hy1, hy2, hy3, hy4, hm1, hm2, _⟩ := h2
  subst hs1
  unfold momentYYYYMM
  rw [if_pos h0]
  show String.mk (pad4 (digitsToNat [c1, c2, c3, c4]) ++ '-' :: pad2 (digitsToNat [c6, c7])) =
    truncYYYYMM ⟨c1 :: c2 :: c3 :: c4 :: '-' :: c6 :: c7 :: c8 :: c9 :: c10 :: c11 ::
      c12 :: c13 :: c14 :: c15 :: c16 :: []⟩
  unfold truncYYYYMM
  rw [pad4_digits hy1 hy2 hy3 hy4, pad2_digits hm1 hm2]
  rfl

theorem momentYYYYMM_is_truncation_witness :
    isoHourlyShape "2024-01-01T00:00" = true ∧
      momentYYYYMM "2024-01-01T00:00" = truncYYYYMM "2024-01-01T00:00" :=
  ⟨by decide, momentYYYYMM_is_truncation "2024-01-01T00:00" (by decide)⟩

/-- C2: For every (timestamp, rainfall) pair processed by the loop body, the
litres added to that hour's month bucket and to the grand total equal
`area * rainfall * 0.0929` (`app.js:94-97`), with negative or zero rainfall
passed through the formula unchanged — the rainfall `r` here ranges over all
rationals and the increment is exactly `area * r * SQFT_FACTOR`. -/
theorem aggStep_adds_conversion (area r b t : ℚ) (st : AggState) (date : String)
    (hb : st.monthlyWaterCollected (momentYYYYMM date) = JNum.num b)
    (ht : st.totalWaterCollected = JNum.num t) :
    (aggStep area st date (JNum.num r)).monthlyWaterCollected (momentYYYYMM date) =
      JNum.num (b + area * r * SQFT_FACTOR) ∧
    (aggStep area st date (JNum.num r)).totalWaterCollected =
      JNum.num (t + area * r * SQFT_FACTOR) := by
  by_cases hb0 : b = 0 <;>
    constructor <;>
      simp [aggStep, hb, ht, hb0, falsy, jadd, jmul]

theorem aggStep_adds_conversion_witness :
    initAgg.monthlyWaterCollected (momentYYYYMM "2024-01-01T00:00") = JNum.num 0 ∧
    (aggStep 3 initAgg "2024-01-01T00:00" (JNum.num (-2))).monthlyWaterCollected
        (momentYYYYMM "2024-01-01T00:00") = JNum.num (0 + 3 * (-2) * SQFT_FACTOR) ∧
    (aggStep 3 initAgg "2024-01-01T00:00" (JNum.num (-2))).totalWaterCollected =
      JNum.num (0 + 3 * (-2) * SQFT_FACTOR) := by
  refine ⟨rfl, ?_⟩
  have h := aggStep_adds_conversion 3 (-2) 0 0 initAgg "2024-01-01T00:00" rfl rfl
  exact h

/-- C9: For area 1000 sq ft and a single hourly entry of 10 mm rainfall on
2024-01-01, the response reports `totalWaterCollected = "929.00"` litres
(`1000 * 10 * 0.0929`) and `moneySaved = "1.39"` (`929 / 1000 * 1.5 =
1.3935`, rounded to 2 decimal places), with status 200. -/
theorem example_929_response :
    (handler emptyCache 0 (Except.ok ⟨some ⟨some ["2024-01-01T00:00"], some [10]⟩⟩)
      ⟨some "51", some "0", some "2024-01-01", some "2024-01-01", some "1000"⟩).resp.status
        = 200 ∧
    totalField (handler emptyCache 0
      (Except.ok ⟨some ⟨some ["2024-01-01T00:00"], some [10]⟩⟩)
      ⟨some "51", some "0", some "2024-01-01", some "2024-01-01", some "1000"⟩).resp.body
        = some "929.00" ∧
    moneyField (handler emptyCache 0
      (Except.ok ⟨some ⟨some ["2024-01-01T00:00"], some [10]⟩⟩)
      ⟨some "51", some "0", some "2024-01-01", some "2024-01-01", some "1000"⟩).resp.body
        = some "1.39" :=
  ⟨by with_unfolding_all rfl, by with_unfolding_all rfl, by with_unfolding_all rfl⟩

/-- C5: For two fetches with identical (latitude, longitude, startDate,
endDate) where the first misses and stores, any second fetch within the
3600-second TTL window returns the stored payload from the cache with zero
upstream calls — whatever the upstream would do on the second call — and
expired entries are never returned by a cache read. -/
theorem cache_hit_within_ttl (c : Cache) (n1 n2 : ℕ) (d : WeatherData)
    (lat lon sd ed : String) (up2 : Except String WeatherData)
    (hmiss : cacheGet c n1 (cacheKey lat lon sd ed) = none)
    (hwin : n2 ≤ n1 + 3600 * 1000) :
    (getWeatherData c n1 (Except.ok d) lat lon sd ed).result = Except.ok d ∧
    getWeatherData (getWeatherData c n1 (Except.ok d) lat lon sd ed).cache n2 up2
        lat lon sd ed =
      ⟨Except.ok d, (getWeatherData c n1 (Except.ok d) lat lon sd ed).cache, 0⟩ ∧
    (∀ (c2 : Cache) (now : ℕ) (k : String) (v : WeatherData) (t : ℕ),
      c2 k = some (v, t) → t < now → cacheGet c2 now k = none) := by
  refine ⟨?_, ?_, ?_⟩
  · simp [getWeatherData, hmiss]
  · have hstep : (getWeatherData c n1 (Except.ok d) lat lon sd ed).cache =
        cacheSet c n1 (cacheKey lat lon sd ed) d := by
      simp [getWeatherData, hmiss]
    have hget : cacheGet (cacheSet c n1 (cacheKey lat lon sd ed) d) n2
        (cacheKey lat lon sd ed) = some d := by
      have hlt : ¬ (n1 + 3600 * 1000 < n2) := by omega
      simp [cacheGet, cacheSet, hlt]
    rw [hstep]
    simp [getWeatherData, hget]
  · intro c2 now k v t hk ht
    simp [cacheGet, hk, ht]

theorem cache_hit_within_ttl_witness :
    cacheGet emptyCache 0 (cacheKey "51" "0" "2024-01-01" "2024-01-02") = none ∧
    getWeatherData
        (getWeatherData emptyCache 0
          (Except.ok ⟨some ⟨some ["2024-01-01T00:00"], some [10]⟩⟩)
          "51" "0" "2024-01-01" "2024-01-02").cache
        3600000 (Except.error "upstream down") "51" "0" "2024-01-01" "2024-01-02" =
      ⟨Except.ok ⟨some ⟨some ["2024-01-01T00:00"], some [10]⟩⟩,
        (getWeatherData emptyCache 0
          (Except.ok ⟨some ⟨some ["2024-01-01T00:00"], some [10]⟩⟩)
          "51" "0" "2024-01-01" "2024-01-02").cache, 0⟩ :=
  ⟨rfl,
    (cache_hit_within_ttl emptyCache 0 3600000
      ⟨some ⟨some ["2024-01-01T00:00"], some [10]⟩⟩
      "51" "0" "2024-01-01" "2024-01-02" (Except.error "upstream down") rfl
      (by omega)).2.1⟩

/-- C7: For every fetched payload lacking `hourly`, `hourly.time` or
`hourly.precipitation`, a request that passed validation responds 500 with
error "Invalid weather data structure"; the aggregation loop is applied
only in the surviving `some` branch of `shapeOk`, so it is never invoked on
such a payload. -/
theorem malformed_payload_500 (c : Cache) (now : ℕ)
    (upstream : Except String WeatherData) (q : Query) (wd : WeatherData) (a : ℚ)
    (h1 : missingParams q = false)
    (h2 : parseFloatJS (q.areaSqFt.getD "") = JNum.num a)
    (h3 : 0 < a)
    (h4 : (getWeatherData c now upstream (q.latitude.getD "") (q.longitude.getD "")
        (q.startDate.getD "") (q.endDate.getD "")).result = Except.ok wd)
    (h5 : wd.hourly = none ∨
      ∃ hb, wd.hourly = some hb ∧ (hb.time = none ∨ hb.precipitation = none)) :
    (handler c now upstream q).resp = ⟨500, Body.fail "Invalid weather data structure"⟩ := by
  have hshape : shapeOk wd = none := by
    rcases h5 with h5 | ⟨hb, hhb, h5⟩
    · simp [shapeOk, h5]
    · rcases h5 with h5 | h5 <;> rcases hbt : hb.time with _ | ts <;>
        rcases hbp : hb.precipitation with _ | ps <;>
        simp_all [shapeOk]
  simp [handler, h1, h2, h3.not_le, h4, hshape]

theorem malformed_payload_500_witness :
    parseFloatJS "1000" = JNum.num 1000 ∧
    (handler emptyCache 0
      (Except.ok ⟨some ⟨some ["2024-01-01T00:00"], none⟩⟩)
      ⟨some "51", some "0", some "2024-01-01", some "2024-01-01", some "1000"⟩).resp =
        ⟨500, Body.fail "Invalid weather data structure"⟩ :=
  ⟨by with_unfolding_all rfl,
    malformed_payload_500 emptyCache 0
      (Except.ok ⟨some ⟨some ["2024-01-01T00:00"], none⟩⟩)
      ⟨some "51", some "0", some "2024-01-01", some "2024-01-01", some "1000"⟩
      ⟨some ⟨some ["2024-01-01T00:00"], none⟩⟩ 1000 rfl (by with_unfolding_all rfl)
      (by norm_num) rfl
      (Or.inr ⟨⟨some ["2024-01-01T00:00"], none⟩, rfl, Or.inr rfl⟩)⟩

/-- C8: For every upstream failure that survives the retry policy (the
post-retry outcome is an error), a request that passed validation and
missed the cache responds 500 with the upstream error's message, exactly
one upstream request is made, and the cache is returned unchanged. -/
theorem upstream_failure_500 (c : Cache) (now : ℕ) (e : String) (q : Query) (a : ℚ)
    (h1 : missingParams q = false)
    (h2 : parseFloatJS (q.areaSqFt.getD "") = JNum.num a)
    (h3 : 0 < a)
    (hmiss : cacheGet c now (cacheKey (q.latitude.getD "") (q.longitude.getD "")
      (q.startDate.getD "") (q.endDate.getD "")) = none) :
    handler c now (Except.error e) q = ⟨⟨500, Body.fail e⟩, c, 1⟩ := by
  simp [handler, h1, h2, h3.not_le, getWeatherData, hmiss]

theorem upstream_failure_500_witness :
    parseFloatJS "1000" = JNum.num 1000 ∧
    handler emptyCache 0 (Except.error "Request failed with status code 500")
        ⟨some "51", some "0", some "2024-01-01", some "2024-01-01", some "1000"⟩ =
      ⟨⟨500, Body.fail "Request failed with status code 500"⟩, emptyCache, 1⟩ :=
  ⟨by with_unfolding_all rfl,
    upstream_failure_500 emptyCache 0 "Request failed with status code 500"
      ⟨some "51", some "0", some "2024-01-01", some "2024-01-01", some "1000"⟩
      1000 rfl (by with_unfolding_all rfl) (by norm_num) rfl⟩

/-- C6: The endpoint responds 400 exactly when validation fails: an absent
parameter among the five yields 400 with the missing-parameters error, a
parsed area that is `NaN` or not positive yields 400 "Invalid area value",
in both cases with zero upstream calls and an unchanged cache (so no fetch
or aggregation occurs), and conversely a 400 status only arises from one of
those two validation failures. -/
theorem validation_rejects_400 (c : Cache) (now : ℕ)
    (upstream : Except String WeatherData) (q : Query) :
    ((q.latitude = none ∨ q.longitude = none ∨ q.startDate = none ∨
        q.endDate = none ∨ q.areaSqFt = none) →
      handler c now upstream q = ⟨⟨400, Body.fail missingMsg⟩, c, 0⟩) ∧
    (missingParams q = false →
      (parseFloatJS (q.areaSqFt.getD "") = JNum.nan ∨
        ∃ a, parseFloatJS (q.areaSqFt.getD "") = JNum.num a ∧ a ≤ 0) →
      handler c now upstream q = ⟨⟨400, Body.fail "Invalid area value"⟩, c, 0⟩) ∧
    ((handler c now upstream q).resp.status = 400 →
      missingParams q = true ∨ parseFloatJS (q.areaSqFt.getD "") = JNum.nan ∨
        ∃ a, parseFloatJS (q.areaSqFt.getD "") = JNum.num a ∧ a ≤ 0) := by
  refine ⟨?_, ?_, ?_⟩
  · intro h
    have hm : missingParams q = true := by
      rcases h with h | h | h | h | h <;> simp [missingParams, truthy, h]
    simp [handler, hm]
  · intro hm hbad
    rcases hbad with hbad | ⟨a, ha, hle⟩
    · simp [handler, hm, hbad]
    · simp [handler, hm, ha, hle]
  · intro hst
    by_cases hm : missingParams q = true
    · exact Or.inl hm
    · right
      have hm2 : missingParams q = false := by
        simpa using hm
      rcases hp : parseFloatJS (q.areaSqFt.getD "") with _ | a
      · exact Or.inl rfl
      · right
        by_cases hle : a ≤ 0
        · exact ⟨a, rfl, hle⟩
        · exfalso
          rcases hres : (getWeatherData c now upstream (q.latitude.getD "")
              (q.longitude.getD "") (q.startDate.getD "")
              (q.endDate.getD "")).result with e | wd
          · simp [handler, hm2, hp, hle, hres] at hst
          · rcases hsh : shapeOk wd with _ | ⟨dates, precipitation⟩
            · simp [handler, hm2, hp, hle, hres, hsh] at hst
            · simp [handler, hm2, hp, hle, hres, hsh] at hst

theorem validation_rejects_400_witness :
    handler emptyCache 0 (Except.error "x")
        ⟨none, some "0", some "2024-01-01", some "2024-01-02", some "10"⟩ =
      ⟨⟨400, Body.fail missingMsg⟩, emptyCache, 0⟩ ∧
    handler emptyCache 0 (Except.error "x")
        ⟨some "51", some "0", some "2024-01-01", some "2024-01-02", some "-5"⟩ =
      ⟨⟨400, Body.fail "Invalid area value"⟩, emptyCache, 0⟩ ∧
    handler emptyCache 0 (Except.error "x")
        ⟨some "51", some "0", some "2024-01-01", some "2024-01-02", some "abc"⟩ =
      ⟨⟨400, Body.fail "Invalid area value"⟩, emptyCache, 0⟩ :=
  ⟨(validation_rejects_400 emptyCache 0 (Except.error "x")
      ⟨none, some "0", some "2024-01-01", some "2024-01-02", some "10"⟩).1 (Or.inl rfl),
   (validation_rejects_400 emptyCache 0 (Except.error "x")
      ⟨some "51", some "0", some "2024-01-01", some "2024-01-02", some "-5"⟩).2.1 rfl
      (Or.inr ⟨-5, by with_unfolding_all rfl, by norm_num⟩),
   (validation_rejects_400 emptyCache 0 (Except.error "x")
      ⟨some "51", some "0", some "2024-01-01", some "2024-01-02", some "abc"⟩).2.1 rfl
      (Or.inl (by with_unfolding_all rfl))⟩

/-- C3: For every successful request, the `moneySaved` figure equals
`totalWaterCollected / 1000 * 1.50` computed from the unrounded grand total
`t` and only then rounded to 2 decimal places by `toFixed(2)` for the
response (`app.js:101, 107`). -/
theorem moneySaved_from_total (c : Cache) (now : ℕ)
    (upstream : Except String WeatherData) (q : Query) (wd : WeatherData)
    (a t : ℚ) (dates : List String) (precipitation : List ℚ)
    (h1 : missingParams q = false)
    (h2 : parseFloatJS (q.areaSqFt.getD "") = JNum.num a)
    (h3 : 0 < a)
    (h4 : (getWeatherData c now upstream (q.latitude.getD "") (q.longitude.getD "")
        (q.startDate.getD "") (q.endDate.getD "")).result = Except.ok wd)
    (h5 : shapeOk wd = some (dates, precipitation))
    (h6 : (aggregate a dates precipitation).totalWaterCollected = JNum.num t) :
    (handler c now upstream q).resp.status = 200 ∧
    moneyField (handler c now upstream q).resp.body =
      some (jToFixed2 (JNum.num (t / 1000 * WATER_COST_PER_1000_LITRES))) := by
  constructor <;>
    simp [handler, h1, h2, h3.not_le, h4, h5, h6, jdiv, jmul, moneyField]

theorem moneySaved_from_total_witness :
    (aggregate 1000 ["2024-01-01T00:00"] [10]).totalWaterCollected = JNum.num 929 ∧
    moneyField (handler emptyCache 0
      (Except.ok ⟨some ⟨some ["2024-01-01T00:00"], some [10]⟩⟩)
      ⟨some "51", some "0", some "2024-01-01", some "2024-01-01", some "1000"⟩).resp.body =
        some (jToFixed2 (JNum.num (929 / 1000 * WATER_COST_PER_1000_LITRES))) :=
  ⟨by with_unfolding_all rfl,
   (moneySaved_from_total emptyCache 0
      (Except.ok ⟨some ⟨some ["2024-01-01T00:00"], some [10]⟩⟩)
      ⟨some "51", some "0", some "2024-01-01", some "2024-01-01", some "1000"⟩
      ⟨some ⟨some ["2024-01-01T00:00"], some [10]⟩⟩ 1000 929
      ["2024-01-01T00:00"] [10] rfl (by with_unfolding_all rfl) (by norm_num)
      rfl rfl (by with_unfolding_all rfl)).2⟩

/-! ## Grand total versus bucket sum (the aggregation invariant) -/

theorem mem_enum_fst_lt {α : Type} {l : List α} {p : ℕ × α} (h : p ∈ l.enum) :
    p.1 < l.length := by
  obtain ⟨i, a⟩ := p
  rw [List.mk_mem_enum_iff_getElem?] at h
  by_contra hlt
  rw [List.getElem?_eq_none (by omega)] at h
  exact Option.noConfusion h

theorem sum_map_update (keys : List String) (g : String → ℚ) (m : String) (w : ℚ)
    (hnd : keys.Nodup) (hm : m ∈ keys) :
    (keys.map fun k => if k = m then g m + w else g k).sum = (keys.map g).sum + w := by
  induction keys with
  | nil => cases hm
  | cons a t ih =>
    rw [List.nodup_cons] at hnd
    rcases List.mem_cons.mp hm with rfl | hmt
    · have hmap : (t.map fun k => if k = m then g m + w else g k) = t.map g := by
        apply List.map_congr_left
        intro x hx
        apply if_neg
        intro hxa
        exact hnd.1 (hxa ▸ hx)
      rw [List.map_cons, hmap, List.sum_cons, List.map_cons, List.sum_cons, if_pos rfl]
      ring
    · have hne : a ≠ m := by
        intro hh
        exact hnd.1 (by rw [hh]; exact hmt)
      rw [List.map_cons, List.sum_cons, if_neg hne, ih hnd.2 hmt, List.map_cons,
        List.sum_cons]
      ring

theorem jsum_map_num (keys : List String) (f : String → JNum) (g : String → ℚ)
    (h : ∀ k ∈ keys, f k = JNum.num (g k)) :
    jsum (keys.map f) = JNum.num ((keys.map g).sum) := by
  induction keys with
  | nil => rfl
  | cons a t ih =>
    have hrest := ih fun k hk => h k (List.mem_cons_of_mem a hk)
    simp only [List.map_cons, jsum, List.foldr_cons] at hrest ⊢
    rw [h a (List.mem_cons_self a t), hrest, jadd_num, List.sum_cons]

theorem aggFold_invariant (area : ℚ) (precipitation : List ℚ) :
    ∀ (l : List (ℕ × String)) (st : AggState) (g : String → ℚ),
      (∀ p ∈ l, p.1 < precipitation.length) →
      (∀ k, st.monthlyWaterCollected k = JNum.num (g k)) →
      (∀ k, k ∉ st.monthKeys → g k = 0) →
      st.monthKeys.Nodup →
      st.totalWaterCollected = JNum.num ((st.monthKeys.map g).sum) →
      ∃ g2 : String → ℚ,
        (∀ k, (aggFold area precipitation l st).monthlyWaterCollected k = JNum.num (g2 k)) ∧
        (∀ k, k ∉ (aggFold area precipitation l st).monthKeys → g2 k = 0) ∧
        (aggFold area precipitation l st).monthKeys.Nodup ∧
        (aggFold area precipitation l st).totalWaterCollected =
          JNum.num (((aggFold area precipitation l st).monthKeys.map g2).sum) := by
  intro l
  induction l with
  | nil => exact fun st g _ hmon hoff hnd htot => ⟨g, hmon, hoff, hnd, htot⟩
  | cons p rest ih =>
    intro st g hidx hmon hoff hnd htot
    obtain ⟨i, date⟩ := p
    have hi : i < precipitation.length := hidx (i, date) (List.mem_cons_self _ _)
    obtain ⟨r, hr⟩ : ∃ r, precipitation[i]? = some r :=
      ⟨precipitation[i], List.getElem?_eq_getElem hi⟩
    have hrr : readRain precipitation i = JNum.num r := by simp [readRain, hr]
    have hfold : aggFold area precipitation ((i, date) :: rest) st =
        aggFold area precipitation rest (aggStep area st date (JNum.num r)) := by
      simp [aggFold, hrr]
    rw [hfold]
    have hbase : (if falsy (st.monthlyWaterCollected (momentYYYYMM date)) then JNum.num 0
        else st.monthlyWaterCollected (momentYYYYMM date)) =
        JNum.num (g (momentYYYYMM date)) := by
      rw [hmon (momentYYYYMM date)]
      by_cases h0 : g (momentYYYYMM date) = 0 <;> simp [falsy, h0]
    have hsub : momentYYYYMM date ∈
        (aggStep area st date (JNum.num r)).monthKeys := by
      by_cases hmem : momentYYYYMM date ∈ st.monthKeys <;>
        simp [aggStep, hmem]
    have hkeys : ∀ k ∈ st.monthKeys,
        k ∈ (aggStep area st date (JNum.num r)).monthKeys := by
      intro k hk
      by_cases hmem : momentYYYYMM date ∈ st.monthKeys <;>
        simp [aggStep, hmem, hk]
    apply ih (aggStep area st date (JNum.num r))
      (fun k => if k = momentYYYYMM date
        then g (momentYYYYMM date) + area * r * SQFT_FACTOR else g k)
    · exact fun p2 hp2 => hidx p2 (List.mem_cons_of_mem _ hp2)
    · intro k
      by_cases hk : k = momentYYYYMM date
      · subst hk
        simp [aggStep, hbase, jadd, jmul]
      · simp [aggStep, hk, hmon k]
    · intro k hk
      have hkm : k ≠ momentYYYYMM date := by
        intro hkm
        exact hk (by rw [hkm]; exact hsub)
      rw [if_neg hkm]
      exact hoff k fun hmem => hk (hkeys k hmem)
    · by_cases hmem : momentYYYYMM date ∈ st.monthKeys
      · simpa [aggStep, hmem] using hnd
      · simp [aggStep, hmem, List.nodup_append, hnd]
    · by_cases hmem : momentYYYYMM date ∈ st.monthKeys
      · have hsum := sum_map_update st.monthKeys g (momentYYYYMM date)
          (area * r * SQFT_FACTOR) hnd hmem
        simp only [aggStep, if_pos hmem]
        rw [htot]
        simp only [jmul, jadd, hsum]
      · have hmap : (st.monthKeys.map fun k => if k = momentYYYYMM date
            then g (momentYYYYMM date) + area * r * SQFT_FACTOR else g k) =
            st.monthKeys.map g := by
          apply List.map_congr_left
          intro x hx
          apply if_neg
          intro hxm
          exact hmem (hxm ▸ hx)
        simp only [aggStep, if_neg hmem]
        rw [htot]
        simp only [jmul, jadd]
        rw [List.map_append, hmap]
        simp [hoff (momentYYYYMM date) hmem]

/-- C1: For every weather series processed by the aggregation loop (time
and precipitation arrays aligned, so every index read is in range), the
grand total `totalWaterCollected` before formatting equals the sum of all
values in the monthly bucket map, both being accumulated from the same
per-hour increments — exactly, since the embedding models JS numbers as
exact rationals. -/
theorem total_eq_sum_of_buckets (area : ℚ) (dates : List String)
    (precipitation : List ℚ) (h : dates.length ≤ precipitation.length) :
    (aggregate area dates precipitation).totalWaterCollected =
      jsum ((aggregate area dates precipitation).monthKeys.map
        (aggregate area dates precipitation).monthlyWaterCollected) := by
  have hidx : ∀ p ∈ dates.enum, p.1 < precipitation.length :=
    fun p hp => lt_of_lt_of_le (mem_enum_fst_lt hp) h
  obtain ⟨g2, hmon, _, _, htot⟩ :=
    aggFold_invariant area precipitation dates.enum initAgg (fun _ => 0) hidx
      (fun _ => rfl) (fun _ _ => rfl) List.nodup_nil (by simp [initAgg])
  show (aggFold area precipitation dates.enum initAgg).totalWaterCollected =
    jsum ((aggFold area precipitation dates.enum initAgg).monthKeys.map
      (aggFold area precipitation dates.enum initAgg).monthlyWaterCollected)
  rw [htot, jsum_map_num _ _ g2 fun k _ => hmon k]

theorem total_eq_sum_of_buckets_witness :
    (["2024-01-01T00:00", "2024-02-01T00:00"] : List String).length ≤
      ([1, 2] : List ℚ).length ∧
    (aggregate 2 ["2024-01-01T00:00", "2024-02-01T00:00"] [1, 2]).totalWaterCollected =
      jsum ((aggregate 2 ["2024-01-01T00:00", "2024-02-01T00:00"] [1, 2]).monthKeys.map
        (aggregate 2 ["2024-01-01T00:00", "2024-02-01T00:00"] [1, 2]).monthlyWaterCollected) :=
  ⟨by decide,
    total_eq_sum_of_buckets 2 ["2024-01-01T00:00", "2024-02-01T00:00"] [1, 2] (by decide)⟩

/-! ## NaN propagation for mismatched array lengths -/

theorem aggFold_total_nan (area : ℚ) (precipitation : List ℚ) :
    ∀ (l : List (ℕ × String)) (st : AggState),
      st.totalWaterCollected = JNum.nan →
      (aggFold area precipitation l st).totalWaterCollected = JNum.nan := by
  intro l
  induction l with
  | nil => exact fun st h => h
  | cons p rest ih =>
    intro st h
    show (aggFold area precipitation rest
      (aggStep area st p.2 (readRain precipitation p.1))).totalWaterCollected = JNum.nan
    apply ih
    simp [aggStep, h, jadd_nan_left]

theorem aggFold_total_nan_of_oob (area : ℚ) (precipitation : List ℚ) :
    ∀ (l : List (ℕ × String)) (st : AggState),
      (∃ p ∈ l, precipitation.length ≤ p.1) →
      (aggFold area precipitation l st).totalWaterCollected = JNum.nan := by
  intro l
  induction l with
  | nil =>
    rintro st ⟨p, hp, _⟩
    cases hp
  | cons p rest ih =>
    rintro st ⟨p2, hp2, hlen⟩
    rcases List.mem_cons.mp hp2 with rfl | hmem
    · have hrr : readRain precipitation p2.1 = JNum.nan := by
        simp [readRain, List.getElem?_eq_none hlen]
      show (aggFold area precipitation rest
        (aggStep area st p2.2 (readRain precipitation p2.1))).totalWaterCollected = JNum.nan
      apply aggFold_total_nan
      simp [aggStep, hrr, jmul_nan_right, jmul_nan_left, jadd_nan_right]
    · exact ih (aggStep area st p.2 (readRain precipitation p.1)) ⟨p2, hmem, hlen⟩

/-- C10: The aggregation is total over arrays of any lengths — the shape
check tests presence only, not equal length — so for every payload whose
precipitation array is shorter than its time array, a validated request
still responds 200 without throwing, the missing indices contributing `NaN`
(the JS `undefined` read coerced by the multiplication) so that
`totalWaterCollected` and `moneySaved` are the string `"NaN"`. -/
theorem short_precipitation_nan (c : Cache) (now : ℕ)
    (upstream : Except String WeatherData) (q : Query) (wd : WeatherData) (a : ℚ)
    (dates : List String) (precipitation : List ℚ)
    (h1 : missingParams q = false)
    (h2 : parseFloatJS (q.areaSqFt.getD "") = JNum.num a)
    (h3 : 0 < a)
    (h4 : (getWeatherData c now upstream (q.latitude.getD "") (q.longitude.getD "")
        (q.startDate.getD "") (q.endDate.getD "")).result = Except.ok wd)
    (h5 : shapeOk wd = some (dates, precipitation))
    (h6 : precipitation.length < dates.length) :
    (handler c now upstream q).resp.status = 200 ∧
    totalField (handler c now upstream q).resp.body = some "NaN" ∧
    moneyField (handler c now upstream q).resp.body = some "NaN" := by
  have htot : (aggregate a dates precipitation).totalWaterCollected = JNum.nan := by
    apply aggFold_total_nan_of_oob
    refine ⟨(precipitation.length, dates.get ⟨precipitation.length, h6⟩), ?_, le_refl _⟩
    rw [List.mk_mem_enum_iff_getElem?]
    simp [List.getElem?_eq_getElem h6]
  refine ⟨?_, ?_, ?_⟩ <;>
    simp [handler, h1, h2, h3.not_le, h4, h5, htot, jdiv_nan_left, jmul_nan_left,
      jToFixed2, totalField, moneyField]

theorem short_precipitation_nan_witness :
    ([] : List ℚ).length < (["2024-01-01T00:00"] : List String).length ∧
    totalField (handler emptyCache 0
      (Except.ok ⟨some ⟨some ["2024-01-01T00:00"], some []⟩⟩)
      ⟨some "51", some "0", some "2024-01-01", some "2024-01-01", some "1000"⟩).resp.body =
        some "NaN" ∧
    moneyField (handler emptyCache 0
      (Except.ok ⟨some ⟨some ["2024-01-01T00:00"], some []⟩⟩)
      ⟨some "51", some "0", some "2024-01-01", some "2024-01-01", some "1000"⟩).resp.body =
        some "NaN" :=
  ⟨by decide,
    (short_precipitation_nan emptyCache 0
      (Except.ok ⟨some ⟨some ["2024-01-01T00:00"], some []⟩⟩)
      ⟨some "51", some "0", some "2024-01-01", some "2024-01-01", some "1000"⟩
      ⟨some ⟨some ["2024-01-01T00:00"], some []⟩⟩ 1000 ["2024-01-01T00:00"] []
      rfl (by with_unfolding_all rfl) (by norm_num) rfl rfl (by decide)).2⟩

end OpenMeteo
